import Mathlib

set_option maxRecDepth 100000

/-!
Shallow embedding of src/demo.py: a single Flask route handler that echoes
a form field into a fixed HTML template without escaping.
-/

/-- HTTP method of a request; the route accepts GET and POST. -/
inductive Method where
  | GET : Method
  | POST : Method
deriving DecidableEq, Repr

/-- An incoming HTTP request to the route: its method and the decoded
form body as an association list of field names to values. -/
structure Request where
  method : Method
  form : List (String × String)
deriving DecidableEq, Repr

/-- An HTTP response: status code and HTML body. -/
structure Response where
  status : Nat
  body : String
deriving DecidableEq, Repr

/-- Lookup of a field in the decoded form body, as Flask request.form
does: the first value bound to the key, or none when the field is absent. -/
def formLookup (form : List (String × String)) (key : String) : Option String :=
  (form.find? (fun p => p.1 == key)).map Prod.snd

/-- Character chunk 1 of the fixed template text before the placeholder. -/
def CHUNK1 : String :=
  "\n<!doctype html>\n<html lang=\"en\">\n<head>\n    <meta charset=\"UTF-8\">\n    <meta name=\"viewport\" content=\"width=device-width, initial-scale=1.0\">\n    <title>LLM Insecure Output Handling Example</title>\n    <style>\n        /* Basic Reset */\n        * \x7b\n            margin: 0;\n            padding: 0;\n            box-sizing: border-box"

/-- Character chunk 2 of the fixed template text before the placeholder. -/
def CHUNK2 : String :=
  ";\n            font-family: \x27Courier New\x27, Courier, monospace;\n        \x7d\n\n        body \x7b\n            background-color: #000;\n            color: #0f0;\n            display: flex;\n            justify-content: center;\n            align-items: center;\n            height: 100vh;\n            flex-direction: column;\n            overflow:"

/-- Character chunk 3 of the fixed template text before the placeholder. -/
def CHUNK3 : String :=
  " hidden;\n        \x7d\n\n        h1, h2 \x7b\n            text-align: center;\n            text-shadow: 0 0 5px #00ff00, 0 0 10px #00ff00;\n        \x7d\n\n        form \x7b\n            background: rgba(0, 255, 0, 0.1);\n            padding: 20px;\n            border: 2px solid #0f0;\n            border-radius: 5px;\n            box-shadow: 0 0 15px r"

/-- Character chunk 4 of the fixed template text before the placeholder. -/
def CHUNK4 : String :=
  "gba(0, 255, 0, 0.5);\n            width:50%;\n        \x7d\n\n        input[type=\"text\"] \x7b\n            background-color: black;\n            color: #0f0;\n            border: 1px solid #0f0;\n            padding: 5px;\n            width: 100%;\n        \x7d\n\n        input[type=\"submit\"] \x7b\n            background-color: black;\n            color:"

/-- Character chunk 5 of the fixed template text before the placeholder. -/
def CHUNK5 : String :=
  " #0f0;\n            border: 1px solid #0f0;\n            padding: 5px 10px;\n            cursor: pointer;\n        \x7d\n\n        input[type=\"submit\"]:hover \x7b\n            background-color: #0f0;\n            color: black;\n        \x7d\n\n        #output \x7b\n            margin-top: 15px;\n            padding: 10px;\n            border: 1px dashed "

/-- Character chunk 6 of the fixed template text before the placeholder. -/
def CHUNK6 : String :=
  "#0f0;\n            font-family: \x27Courier New\x27, Courier, monospace;\n            font-size: 1.2em;\n            white-space: pre-wrap;\n            text-shadow: 0 0 5px #00ff00, 0 0 10px #00ff00;\n        \x7d\n\n        /* Glitch Effect */\n        @keyframes glitch \x7b\n            0% \x7b transform: translate(2px, 2px); \x7d\n            20% \x7b tra"

/-- Character chunk 7 of the fixed template text before the placeholder. -/
def CHUNK7 : String :=
  "nsform: translate(-2px, -2px); \x7d\n            40% \x7b transform: translate(2px, -2px); \x7d\n            60% \x7b transform: translate(-2px, 2px); \x7d\n            80% \x7b transform: translate(2px, 2px); \x7d\n            100% \x7b transform: translate(-2px, -2px); \x7d\n        \x7d\n\n        h1 \x7b\n            animation: glitch 1s infinite;\n        \x7d\n\n    </"

/-- Character chunk 8 of the fixed template text before the placeholder. -/
def CHUNK8 : String :=
  "style>\n</head>\n<body>\n    <h1>LLM Output Example</h1>\n    <form method=\"post\">\n        <label for=\"user_input\">Enter your prompt:</label><br>\n        <input type=\"text\" id=\"user_input\" name=\"user_input\"><br><br>\n        <input type=\"submit\" value=\"Submit\">\n    </form>\n    <h2>Output:</h2>\n    <div id=\"output\">"

/-- The fixed page text of HTML_TEMPLATE before the output placeholder
(src/demo.py lines 5-101). -/
def TEMPLATE_PRE : String :=
  CHUNK1 ++ (CHUNK2 ++ (CHUNK3 ++ (CHUNK4 ++ (CHUNK5 ++ (CHUNK6 ++ (CHUNK7 ++ CHUNK8))))))

/-- The fixed page text of HTML_TEMPLATE after the output placeholder
(src/demo.py lines 101-104). -/
def TEMPLATE_POST : String :=
  "</div>\n</body>\n</html>\n"

/-- The Jinja2 placeholder occurring in HTML_TEMPLATE. -/
def PLACEHOLDER : String :=
  "\x7b\x7b output|safe \x7d\x7d"

/-- The template string of src/demo.py lines 5-104: the page markup, with
the one output placeholder inside the output div.  (The chunked form of
the text before the placeholder keeps later evaluations stack-shallow.) -/
def HTML_TEMPLATE : String :=
  TEMPLATE_PRE ++ PLACEHOLDER ++ TEMPLATE_POST

/-- matchesAt pat s is true when pat is an initial segment of s. -/
def matchesAt : List Char → List Char → Bool
  | [], _ => true
  | _ :: _, [] => false
  | p :: ps, c :: cs => p == c && matchesAt ps cs

/-- Split a character list around the first occurrence of pat: the text
before the occurrence and the text after it, or none when pat does not
occur. -/
def splitFirst (pat : List Char) : List Char → Option (List Char × List Char)
  | [] => none
  | c :: cs =>
      if matchesAt pat (c :: cs) then some ([], (c :: cs).drop pat.length)
      else
        match splitFirst pat cs with
        | none => none
        | some (a, b) => some (c :: a, b)

/-- Jinja2 template rendering with the single variable output, as invoked
by render_template_string in src/demo.py line 115: the output placeholder
(whose safe filter disables escaping) is replaced verbatim by the value;
all other template text is emitted unchanged.  Flask and Jinja2 are the
external templating collaborator of the spec; HTML_TEMPLATE contains the
placeholder exactly once (theorem countOccs_template below), so replacing
its first occurrence is the whole of the rendering, and the inserted value
is never scanned for template syntax. -/
def render_template_string (tmpl : String) (output : String) : String :=
  match splitFirst PLACEHOLDER.data tmpl.data with
  | none => tmpl
  | some (a, b) => String.mk a ++ output ++ String.mk b

/-- The route handler index of src/demo.py lines 106-115.  A missing
user_input field on a POST raises an unhandled lookup error (modelled as
Except.error naming the missing key); otherwise the rendered page is
returned with status 200. -/
def index (req : Request) : Except String Response :=
  match req.method with
  | Method.GET =>
      Except.ok ⟨200, render_template_string HTML_TEMPLATE ""⟩
  | Method.POST =>
      match formLookup req.form "user_input" with
      | none => Except.error "user_input"
      | some user_input =>
          Except.ok ⟨200, render_template_string HTML_TEMPLATE
            ("You asked: " ++ user_input ++ ". Here is some output: " ++ user_input)⟩

/-- hasMatchIn pat chunk rest: pat occurs starting at some position inside
chunk (the occurrence may run on into rest). -/
def hasMatchIn (pat : List Char) : List Char → List Char → Bool
  | [], _ => false
  | c :: cs, rest => matchesAt pat (c :: (cs ++ rest)) || hasMatchIn pat cs rest

/-- Number of positions of s at which pat occurs as a substring. -/
def countOccs (pat : List Char) : List Char → Nat
  | [] => if pat.isEmpty then 1 else 0
  | c :: cs => (if matchesAt pat (c :: cs) then 1 else 0) + countOccs pat cs

/-- Number of positions inside chunk at which pat occurs (occurrences may
run on into rest). -/
def countOccsIn (pat : List Char) : List Char → List Char → Nat
  | [], _ => 0
  | c :: cs, rest =>
      (if matchesAt pat (c :: (cs ++ rest)) then 1 else 0) + countOccsIn pat cs rest

/-- containsSub x y: y occurs in x as a substring. -/
def containsSub (x y : String) : Prop :=
  ∃ a b : String, x = a ++ y ++ b

/-- A pattern matches at the head of any list that starts with it. -/
theorem matchesAt_self (pat r : List Char) : matchesAt pat (pat ++ r) = true := by
  induction pat with
  | nil => rfl
  | cons p ps ih => simp [matchesAt, ih]

/-- The placeholder is a nonempty pattern. -/
theorem PLACEHOLDER_ne : PLACEHOLDER.data ≠ [] := by
  decide

/-- splitFirst finds a pattern sitting at the head of the list. -/
theorem splitFirst_self (pat r : List Char) (h : pat ≠ []) :
    splitFirst pat (pat ++ r) = some ([], r) := by
  cases pat with
  | nil => exact absurd rfl h
  | cons p ps =>
      show splitFirst (p :: ps) (p :: (ps ++ r)) = some ([], r)
      rw [splitFirst, if_pos]
      · simp [List.drop_left']
      · exact matchesAt_self (p :: ps) r

/-- Peeling a match-free chunk off the front of the searched list. -/
theorem splitFirst_append (pat chunk rest : List Char)
    (h : hasMatchIn pat chunk rest = false) :
    splitFirst pat (chunk ++ rest) =
      Option.map (fun p => (chunk ++ p.1, p.2)) (splitFirst pat rest) := by
  induction chunk with
  | nil =>
      cases hs : splitFirst pat rest with
      | none => simp [hs]
      | some ab => simp [hs]
  | cons c cs ih =>
      rw [hasMatchIn] at h
      rcases Bool.or_eq_false_iff.mp h with ⟨h1, h2⟩
      show splitFirst pat (c :: (cs ++ rest)) = _
      rw [splitFirst, if_neg (by simp [h1])]
      rw [ih h2]
      cases hs : splitFirst pat rest with
      | none => simp
      | some ab => simp

/-- Occurrence counting splits along a chunk boundary. -/
theorem countOccs_append (pat chunk rest : List Char) :
    countOccs pat (chunk ++ rest) = countOccsIn pat chunk rest + countOccs pat rest := by
  induction chunk with
  | nil => simp [countOccsIn]
  | cons c cs ih =>
      show countOccs pat (c :: (cs ++ rest)) = _
      rw [countOccs, ih, countOccsIn]
      omega

/-- The placeholder does not occur starting inside chunk 8. -/
theorem hm8 : hasMatchIn PLACEHOLDER.data CHUNK8.data ((PLACEHOLDER.data ++ TEMPLATE_POST.data)) = false := by
  decide

/-- Splitting the template tail from chunk 8 onward. -/
theorem sft8 : splitFirst PLACEHOLDER.data (CHUNK8.data ++ ((PLACEHOLDER.data ++ TEMPLATE_POST.data))) =
    some (CHUNK8.data ++ [], TEMPLATE_POST.data) := by
  rw [splitFirst_append _ _ _ hm8, splitFirst_self _ _ PLACEHOLDER_ne]
  rfl

/-- The placeholder does not occur starting inside chunk 7. -/
theorem hm7 : hasMatchIn PLACEHOLDER.data CHUNK7.data (CHUNK8.data ++ ((PLACEHOLDER.data ++ TEMPLATE_POST.data))) = false := by
  decide

/-- Splitting the template tail from chunk 7 onward. -/
theorem sft7 : splitFirst PLACEHOLDER.data (CHUNK7.data ++ (CHUNK8.data ++ ((PLACEHOLDER.data ++ TEMPLATE_POST.data)))) =
    some (CHUNK7.data ++ (CHUNK8.data ++ []), TEMPLATE_POST.data) := by
  rw [splitFirst_append _ _ _ hm7, sft8]
  rfl

/-- The placeholder does not occur starting inside chunk 6. -/
theorem hm6 : hasMatchIn PLACEHOLDER.data CHUNK6.data (CHUNK7.data ++ (CHUNK8.data ++ ((PLACEHOLDER.data ++ TEMPLATE_POST.data)))) = false := by
  decide

/-- Splitting the template tail from chunk 6 onward. -/
theorem sft6 : splitFirst PLACEHOLDER.data (CHUNK6.data ++ (CHUNK7.data ++ (CHUNK8.data ++ ((PLACEHOLDER.data ++ TEMPLATE_POST.data))))) =
    some (CHUNK6.data ++ (CHUNK7.data ++ (CHUNK8.data ++ [])), TEMPLATE_POST.data) := by
  rw [splitFirst_append _ _ _ hm6, sft7]
  rfl

/-- The placeholder does not occur starting inside chunk 5. -/
theorem hm5 : hasMatchIn PLACEHOLDER.data CHUNK5.data (CHUNK6.data ++ (CHUNK7.data ++ (CHUNK8.data ++ ((PLACEHOLDER.data ++ TEMPLATE_POST.data))))) = false := by
  decide

/-- Splitting the template tail from chunk 5 onward. -/
theorem sft5 : splitFirst PLACEHOLDER.data (CHUNK5.data ++ (CHUNK6.data ++ (CHUNK7.data ++ (CHUNK8.data ++ ((PLACEHOLDER.data ++ TEMPLATE_POST.data)))))) =
    some (CHUNK5.data ++ (CHUNK6.data ++ (CHUNK7.data ++ (CHUNK8.data ++ []))), TEMPLATE_POST.data) := by
  rw [splitFirst_append _ _ _ hm5, sft6]
  rfl

/-- The placeholder does not occur starting inside chunk 4. -/
theorem hm4 : hasMatchIn PLACEHOLDER.data CHUNK4.data (CHUNK5.data ++ (CHUNK6.data ++ (CHUNK7.data ++ (CHUNK8.data ++ ((PLACEHOLDER.data ++ TEMPLATE_POST.data)))))) = false := by
  decide

/-- Splitting the template tail from chunk 4 onward. -/
theorem sft4 : splitFirst PLACEHOLDER.data (CHUNK4.data ++ (CHUNK5.data ++ (CHUNK6.data ++ (CHUNK7.data ++ (CHUNK8.data ++ ((PLACEHOLDER.data ++ TEMPLATE_POST.data))))))) =
    some (CHUNK4.data ++ (CHUNK5.data ++ (CHUNK6.data ++ (CHUNK7.data ++ (CHUNK8.data ++ [])))), TEMPLATE_POST.data) := by
  rw [splitFirst_append _ _ _ hm4, sft5]
  rfl

/-- The placeholder does not occur starting inside chunk 3. -/
theorem hm3 : hasMatchIn PLACEHOLDER.data CHUNK3.data (CHUNK4.data ++ (CHUNK5.data ++ (CHUNK6.data ++ (CHUNK7.data ++ (CHUNK8.data ++ ((PLACEHOLDER.data ++ TEMPLATE_POST.data))))))) = false := by
  decide

/-- Splitting the template tail from chunk 3 onward. -/
theorem sft3 : splitFirst PLACEHOLDER.data (CHUNK3.data ++ (CHUNK4.data ++ (CHUNK5.data ++ (CHUNK6.data ++ (CHUNK7.data ++ (CHUNK8.data ++ ((PLACEHOLDER.data ++ TEMPLATE_POST.data)))))))) =
    some (CHUNK3.data ++ (CHUNK4.data ++ (CHUNK5.data ++ (CHUNK6.data ++ (CHUNK7.data ++ (CHUNK8.data ++ []))))), TEMPLATE_POST.data) := by
  rw [splitFirst_append _ _ _ hm3, sft4]
  rfl

/-- The placeholder does not occur starting inside chunk 2. -/
theorem hm2 : hasMatchIn PLACEHOLDER.data CHUNK2.data (CHUNK3.data ++ (CHUNK4.data ++ (CHUNK5.data ++ (CHUNK6.data ++ (CHUNK7.data ++ (CHUNK8.data ++ ((PLACEHOLDER.data ++ TEMPLATE_POST.data)))))))) = false := by
  decide

/-- Splitting the template tail from chunk 2 onward. -/
theorem sft2 : splitFirst PLACEHOLDER.data (CHUNK2.data ++ (CHUNK3.data ++ (CHUNK4.data ++ (CHUNK5.data ++ (CHUNK6.data ++ (CHUNK7.data ++ (CHUNK8.data ++ ((PLACEHOLDER.data ++ TEMPLATE_POST.data))))))))) =
    some (CHUNK2.data ++ (CHUNK3.data ++ (CHUNK4.data ++ (CHUNK5.data ++ (CHUNK6.data ++ (CHUNK7.data ++ (CHUNK8.data ++ [])))))), TEMPLATE_POST.data) := by
  rw [splitFirst_append _ _ _ hm2, sft3]
  rfl

/-- The placeholder does not occur starting inside chunk 1. -/
theorem hm1 : hasMatchIn PLACEHOLDER.data CHUNK1.data (CHUNK2.data ++ (CHUNK3.data ++ (CHUNK4.data ++ (CHUNK5.data ++ (CHUNK6.data ++ (CHUNK7.data ++ (CHUNK8.data ++ ((PLACEHOLDER.data ++ TEMPLATE_POST.data))))))))) = false := by
  decide

/-- Splitting the template tail from chunk 1 onward. -/
theorem sft1 : splitFirst PLACEHOLDER.data (CHUNK1.data ++ (CHUNK2.data ++ (CHUNK3.data ++ (CHUNK4.data ++ (CHUNK5.data ++ (CHUNK6.data ++ (CHUNK7.data ++ (CHUNK8.data ++ ((PLACEHOLDER.data ++ TEMPLATE_POST.data)))))))))) =
    some (CHUNK1.data ++ (CHUNK2.data ++ (CHUNK3.data ++ (CHUNK4.data ++ (CHUNK5.data ++ (CHUNK6.data ++ (CHUNK7.data ++ (CHUNK8.data ++ []))))))), TEMPLATE_POST.data) := by
  rw [splitFirst_append _ _ _ hm1, sft2]
  rfl

/-- The character data of HTML_TEMPLATE, right-associated chunk by chunk. -/
theorem template_data : HTML_TEMPLATE.data =
    CHUNK1.data ++ (CHUNK2.data ++ (CHUNK3.data ++ (CHUNK4.data ++ (CHUNK5.data ++ (CHUNK6.data ++ (CHUNK7.data ++ (CHUNK8.data ++ ((PLACEHOLDER.data ++ TEMPLATE_POST.data))))))))) := by
  simp [HTML_TEMPLATE, TEMPLATE_PRE, List.append_assoc]

/-- The data of TEMPLATE_PRE, right-associated chunk by chunk. -/
theorem template_pre_data : TEMPLATE_PRE.data =
    CHUNK1.data ++ (CHUNK2.data ++ (CHUNK3.data ++ (CHUNK4.data ++ (CHUNK5.data ++ (CHUNK6.data ++ (CHUNK7.data ++ (CHUNK8.data ++ []))))))) := by
  simp [TEMPLATE_PRE, List.append_assoc]

/-- Splitting HTML_TEMPLATE at its placeholder yields the fixed page parts
before and after the output div content. -/
theorem splitFirst_template :
    splitFirst PLACEHOLDER.data HTML_TEMPLATE.data =
      some (TEMPLATE_PRE.data, TEMPLATE_POST.data) := by
  rw [template_data, sft1, template_pre_data]

/-- Rendering HTML_TEMPLATE inserts the output value between the fixed
page parts. -/
theorem render_template_eq (out : String) :
    render_template_string HTML_TEMPLATE out = TEMPLATE_PRE ++ out ++ TEMPLATE_POST := by
  unfold render_template_string
  rw [splitFirst_template]

/-- The placeholder occurs exactly once in HTML_TEMPLATE. -/
theorem countOccs_template :
    countOccs PLACEHOLDER.data HTML_TEMPLATE.data = 1 := by
  rw [template_data]
  simp only [countOccs_append]
  decide

/-- C1: every POST request carrying a form field user_input with value s
yields a rendered page whose body contains the literal substring
"You asked: " ++ s ++ ". Here is some output: " ++ s, with no escaping,
sanitization, or length limiting applied to s. -/
theorem C1_post_reflects_input (form : List (String × String)) (s : String)
    (h : formLookup form "user_input" = some s) :
    ∃ r : Response, index ⟨Method.POST, form⟩ = Except.ok r ∧
      containsSub r.body ("You asked: " ++ s ++ ". Here is some output: " ++ s) := by
  refine ⟨⟨200, TEMPLATE_PRE ++ ("You asked: " ++ s ++ ". Here is some output: " ++ s)
    ++ TEMPLATE_POST⟩, ?_, TEMPLATE_PRE, TEMPLATE_POST, rfl⟩
  simp [index, h, render_template_eq]

/-- C1 witness: the reflection theorem at the concrete input "<b>hi</b>". -/
theorem C1_witness :
    formLookup [("user_input", "<b>hi</b>")] "user_input" = some "<b>hi</b>" ∧
    ∃ r : Response, index ⟨Method.POST, [("user_input", "<b>hi</b>")]⟩ = Except.ok r ∧
      containsSub r.body ("You asked: " ++ "<b>hi</b>" ++ ". Here is some output: "
        ++ "<b>hi</b>") :=
  ⟨rfl, C1_post_reflects_input [("user_input", "<b>hi</b>")] "<b>hi</b>" rfl⟩

/-- C2: every GET request yields the rendered page whose output region is
empty (the placeholder replaced by the empty string). -/
theorem C2_get_empty_output (form : List (String × String)) :
    index ⟨Method.GET, form⟩ =
      Except.ok ⟨200, TEMPLATE_PRE ++ "" ++ TEMPLATE_POST⟩ := by
  simp [index, render_template_eq]

/-- C3: a POST request whose body has no user_input field does not render
the page: the lookup fault propagates and no ok-response is produced. -/
theorem C3_missing_field_fault (form : List (String × String))
    (h : formLookup form "user_input" = none) :
    index ⟨Method.POST, form⟩ = Except.error "user_input" ∧
      ∀ r : Response, index ⟨Method.POST, form⟩ ≠ Except.ok r := by
  constructor
  · simp [index, h]
  · intro r hr
    simp [index, h] at hr

/-- C3 witness: the missing-field theorem at the empty form. -/
theorem C3_witness :
    formLookup [] "user_input" = none ∧
      (index ⟨Method.POST, []⟩ = Except.error "user_input" ∧
        ∀ r : Response, index ⟨Method.POST, []⟩ ≠ Except.ok r) :=
  ⟨rfl, C3_missing_field_fault [] rfl⟩

/-- C4: every GET request, and every POST request carrying user_input,
receives the rendered document with success status 200. -/
theorem C4_success_status (req : Request)
    (h : req.method = Method.GET ∨ ∃ s, formLookup req.form "user_input" = some s) :
    ∃ r : Response, index req = Except.ok r ∧ r.status = 200 := by
  obtain ⟨m, f⟩ := req
  cases m with
  | GET => exact ⟨⟨200, render_template_string HTML_TEMPLATE ""⟩, rfl, rfl⟩
  | POST =>
      rcases h with hm | ⟨s, hs⟩
      · simp at hm
      · refine ⟨⟨200, render_template_string HTML_TEMPLATE
            ("You asked: " ++ s ++ ". Here is some output: " ++ s)⟩, ?_, rfl⟩
        simp [index, hs]

/-- C4 witness: the success theorem at a concrete GET request. -/
theorem C4_witness :
    ((⟨Method.GET, []⟩ : Request).method = Method.GET ∨
      ∃ s, formLookup (⟨Method.GET, []⟩ : Request).form "user_input" = some s) ∧
    ∃ r : Response, index ⟨Method.GET, []⟩ = Except.ok r ∧ r.status = 200 :=
  ⟨Or.inl rfl, C4_success_status ⟨Method.GET, []⟩ (Or.inl rfl)⟩

/-- C5: repeating a POST with the same user_input value s yields
byte-identical responses, whatever else the two form bodies hold. -/
theorem C5_idempotent (form1 form2 : List (String × String)) (s : String)
    (h1 : formLookup form1 "user_input" = some s)
    (h2 : formLookup form2 "user_input" = some s) :
    index ⟨Method.POST, form1⟩ = index ⟨Method.POST, form2⟩ := by
  simp [index, h1, h2]

/-- C5 witness: idempotence at two concrete forms both carrying s = "x". -/
theorem C5_witness :
    formLookup [("a", "1"), ("user_input", "x")] "user_input" = some "x" ∧
    formLookup [("user_input", "x"), ("b", "2")] "user_input" = some "x" ∧
    index ⟨Method.POST, [("a", "1"), ("user_input", "x")]⟩ =
      index ⟨Method.POST, [("user_input", "x"), ("b", "2")]⟩ :=
  ⟨rfl, rfl, C5_idempotent [("a", "1"), ("user_input", "x")]
    [("user_input", "x"), ("b", "2")] "x" rfl rfl⟩

/-- C6: a POST with user_input present and empty produces the output
region "You asked: . Here is some output: ". -/
theorem C6_empty_input :
    index ⟨Method.POST, [("user_input", "")]⟩ =
      Except.ok ⟨200, TEMPLATE_PRE ++ "You asked: . Here is some output: "
        ++ TEMPLATE_POST⟩ := by
  have h : formLookup [("user_input", "")] "user_input" = some "" := rfl
  have e : ("You asked: " ++ "" ++ ". Here is some output: " ++ "" : String) =
      "You asked: . Here is some output: " := rfl
  simp [index, h, render_template_eq, e]

/-- C7: a POST with user_input = "<script>alert(1)</script>" yields an
output region containing that exact substring twice, unescaped: once after
"You asked: " and once after "Here is some output: ". -/
theorem C7_injection :
    index ⟨Method.POST, [("user_input", "<script>alert(1)</script>")]⟩ =
      Except.ok ⟨200, TEMPLATE_PRE ++ ("You asked: " ++ "<script>alert(1)</script>"
        ++ ". Here is some output: " ++ "<script>alert(1)</script>") ++ TEMPLATE_POST⟩ ∧
    countOccs "<script>alert(1)</script>".data
      ("You asked: " ++ "<script>alert(1)</script>" ++ ". Here is some output: "
        ++ "<script>alert(1)</script>").data = 2 := by
  have h : formLookup [("user_input", "<script>alert(1)</script>")] "user_input" =
      some "<script>alert(1)</script>" := rfl
  exact ⟨by simp [index, h, render_template_eq], by decide⟩

/-- C8: the document has exactly one substitution point (the placeholder
occurs once in HTML_TEMPLATE), and every rendered response body is the
fixed template text around a single inserted output value. -/
theorem C8_frame :
    countOccs PLACEHOLDER.data HTML_TEMPLATE.data = 1 ∧
      ∀ (req : Request) (r : Response), index req = Except.ok r →
        ∃ out : String, r.body = TEMPLATE_PRE ++ out ++ TEMPLATE_POST := by
  refine ⟨countOccs_template, ?_⟩
  intro req r hr
  obtain ⟨m, f⟩ := req
  cases m with
  | GET =>
      simp [index, render_template_eq] at hr
      refine ⟨"", ?_⟩
      rw [← hr]
      simp
  | POST =>
      cases hl : formLookup f "user_input" with
      | none => simp [index, hl] at hr
      | some s =>
          simp [index, hl, render_template_eq] at hr
          exact ⟨"You asked: " ++ s ++ ". Here is some output: " ++ s, by rw [← hr]⟩

/-- C8 witness: the frame theorem at a concrete GET request. -/
theorem C8_witness :
    ∃ out : String, (Response.mk 200 (render_template_string HTML_TEMPLATE "")).body =
      TEMPLATE_PRE ++ out ++ TEMPLATE_POST :=
  C8_frame.2 ⟨Method.GET, []⟩ ⟨200, render_template_string HTML_TEMPLATE ""⟩ rfl

/-- C9: the response is a pure function of the request's method and its
user_input value: two requests agreeing on those get equal responses. -/
theorem C9_stateless (r1 r2 : Request)
    (hm : r1.method = r2.method)
    (hf : formLookup r1.form "user_input" = formLookup r2.form "user_input") :
    index r1 = index r2 := by
  obtain ⟨m1, f1⟩ := r1
  obtain ⟨m2, f2⟩ := r2
  simp only [] at hm hf
  cases hm
  cases m1 with
  | GET => rfl
  | POST =>
      simp only [index]
      rw [hf]

/-- C9 witness: statelessness at two concrete POST requests with equal
user_input but different surrounding form fields. -/
theorem C9_witness :
    (⟨Method.POST, [("a", "1"), ("user_input", "x")]⟩ : Request).method =
      (⟨Method.POST, [("user_input", "x"), ("b", "2")]⟩ : Request).method ∧
    formLookup [("a", "1"), ("user_input", "x")] "user_input" =
      formLookup [("user_input", "x"), ("b", "2")] "user_input" ∧
    index ⟨Method.POST, [("a", "1"), ("user_input", "x")]⟩ =
      index ⟨Method.POST, [("user_input", "x"), ("b", "2")]⟩ :=
  ⟨rfl, rfl, C9_stateless ⟨Method.POST, [("a", "1"), ("user_input", "x")]⟩
    ⟨Method.POST, [("user_input", "x"), ("b", "2")]⟩ rfl rfl⟩

/-- C10: template substitution is a single literal insertion, not a second
rendering pass: for every POST user_input = s, even when s itself contains
template syntax, the rendered body is the fixed template around the literal
region "You asked: " ++ s ++ ". Here is some output: " ++ s, so s appears
verbatim and is never evaluated. -/
theorem C10_no_second_render (form : List (String × String)) (s : String)
    (h : formLookup form "user_input" = some s) :
    ∃ r : Response, index ⟨Method.POST, form⟩ = Except.ok r ∧
      r.body = TEMPLATE_PRE ++ ("You asked: " ++ s ++ ". Here is some output: " ++ s)
        ++ TEMPLATE_POST := by
  refine ⟨⟨200, TEMPLATE_PRE ++ ("You asked: " ++ s ++ ". Here is some output: " ++ s)
    ++ TEMPLATE_POST⟩, ?_, rfl⟩
  simp [index, h, render_template_eq]

/-- C10 witness: the verbatim-insertion theorem at the concrete input
"\x7b\x7b7*7\x7d\x7d"; the inserted region contains that template-syntax
text exactly twice and contains no "49", so it was not evaluated. -/
theorem C10_witness :
    formLookup [("user_input", "\x7b\x7b7*7\x7d\x7d")] "user_input" =
      some "\x7b\x7b7*7\x7d\x7d" ∧
    (∃ r : Response, index ⟨Method.POST, [("user_input", "\x7b\x7b7*7\x7d\x7d")]⟩ =
        Except.ok r ∧
      r.body = TEMPLATE_PRE ++ ("You asked: " ++ "\x7b\x7b7*7\x7d\x7d"
        ++ ". Here is some output: " ++ "\x7b\x7b7*7\x7d\x7d") ++ TEMPLATE_POST) ∧
    countOccs "\x7b\x7b7*7\x7d\x7d".data
      ("You asked: " ++ "\x7b\x7b7*7\x7d\x7d" ++ ". Here is some output: "
        ++ "\x7b\x7b7*7\x7d\x7d").data = 2 ∧
    countOccs "49".data
      ("You asked: " ++ "\x7b\x7b7*7\x7d\x7d" ++ ". Here is some output: "
        ++ "\x7b\x7b7*7\x7d\x7d").data = 0 :=
  ⟨rfl, C10_no_second_render [("user_input", "\x7b\x7b7*7\x7d\x7d")]
    "\x7b\x7b7*7\x7d\x7d" rfl, by decide, by decide⟩
